import Mathlib

/-!
# Verification of the hotel booking system (Room Ledger and Context Analyzer)

Shallow embedding of the core logic of `booking_server.py` (the Room Ledger
and the Booking Rule) and of the Context Analyzer functions of
`hotel_mcp_sse_server.py`, together with proofs and refutations of the
specified properties.

Modelling conventions:
* the pandas `DataFrame` of rooms is a `List Room`, iterated in row order;
* Python `float` prices are modelled as exact rationals (`ℚ`); every price
  and markup appearing in the claims is exactly representable;
* `datetime.strptime(s, '%Y-%m-%d')` is modelled by `parseDate`, which
  accepts `YYYY-MM-DD` (month and day may be 1 or 2 digits, as strptime
  allows) and rejects invalid calendar dates, as `datetime` does;
* comparison and subtraction of the resulting `datetime` values is modelled
  by comparing/subtracting day ordinals (`toDays`, the standard
  days-from-civil computation); both dates are at midnight so
  `(d2 - d1).days` is exactly the ordinal difference;
* HTTP error responses (`HTTPException`) become `Except BookingError`.
-/

namespace Hotel

/-- Model of Python's `str.lower()` (ASCII case folding; every string in
the repository's data and keyword sets is ASCII). -/
def strLower (s : String) : String := ⟨s.data.map Char.toLower⟩

/-- Does the pattern match the beginning of the text? -/
def matchAt : List Char → List Char → Bool
  | [], _ => true
  | _ :: _, [] => false
  | p :: ps, c :: cs => p == c && matchAt ps cs

/-- Does the pattern occur contiguously somewhere in the text? -/
def hasSub (p : List Char) : List Char → Bool
  | [] => p.isEmpty
  | c :: cs => matchAt p (c :: cs) || hasSub p cs

/-- Model of Python's `kw in s` on strings: substring containment. -/
def containsSub (s kw : String) : Bool := hasSub kw.toList s.toList

/-- Model of `any(word in text for word in kws)`. -/
def anyKeyword (text : String) (kws : List String) : Bool :=
  kws.any fun kw => containsSub text kw

/-- Gregorian leap-year test, as used by Python's `datetime`. -/
def isLeap (y : Nat) : Bool :=
  (y % 4 == 0 && y % 100 != 0) || y % 400 == 0

/-- Number of days in month `m` of year `y` (Python `calendar` rules). -/
def daysInMonth (y m : Nat) : Nat :=
  if m = 2 then (if isLeap y then 29 else 28)
  else if m = 4 ∨ m = 6 ∨ m = 9 ∨ m = 11 then 30
  else 31

/-- Numeric value of a digit-character list (assumed all digits). -/
def digitsToNat (cs : List Char) : Nat :=
  cs.foldl (fun n c => n * 10 + (c.toNat - 48)) 0

/-- Split a character list at every `'-'` (Python `s.split('-')` /
the field structure `strptime` sees for the format `'%Y-%m-%d'`). -/
def splitDashes : List Char → List (List Char)
  | [] => [[]]
  | c :: cs =>
    if c = '-' then [] :: splitDashes cs
    else
      match splitDashes cs with
      | g :: gs => (c :: g) :: gs
      | [] => [[c]]

/-- Model of `datetime.strptime(s, '%Y-%m-%d')`: a 4-digit year, a dash, a
1-2 digit month, a dash, a 1-2 digit day (strptime accepts unpadded month
and day); year ≥ 1 (`datetime.MINYEAR`), month in 1..12, day within the
month.  Returns the `(year, month, day)` triple, or `none` where
`strptime` raises `ValueError`. -/
def parseDate (s : String) : Option (Nat × Nat × Nat) :=
  match splitDashes s.toList with
  | [ys, ms, ds] =>
    if ys.length = 4 ∧ ys.all Char.isDigit ∧
       1 ≤ ms.length ∧ ms.length ≤ 2 ∧ ms.all Char.isDigit ∧
       1 ≤ ds.length ∧ ds.length ≤ 2 ∧ ds.all Char.isDigit then
      let y := digitsToNat ys
      let m := digitsToNat ms
      let d := digitsToNat ds
      if 1 ≤ y ∧ 1 ≤ m ∧ m ≤ 12 ∧ 1 ≤ d ∧ d ≤ daysInMonth y m then
        some (y, m, d)
      else none
    else none
  | _ => none

/-- Day ordinal of a calendar date (days since 0000-03-01, the standard
days-from-civil computation).  Differences of `toDays` values equal
Python's `(date2 - date1).days`, and `toDays` is monotone in `datetime`
order, which is all the code uses dates for. -/
def toDays (date : Nat × Nat × Nat) : Nat :=
  let y := if date.2.1 ≤ 2 then date.1 - 1 else date.1
  let era := y / 400
  let yoe := y % 400
  let mp := (date.2.1 + 9) % 12
  let doy := (153 * mp + 2) / 5 + date.2.2 - 1
  let doe := yoe * 365 + yoe / 4 - yoe / 100 + doy
  era * 146097 + doe

/-- A row of the Room Ledger (`Hotel_data_updated.csv` as loaded by
`booking_server.py`): the ten columns of `COLUMN_ORDER`, with the numeric
price as an exact rational and all other fields as the strings pandas
stores after the `.fillna("").astype(str)` normalisation. -/
structure Room where
  roomNumber : Int
  roomType : String
  availability : String
  guestName : String
  numberOfPeople : String
  extraFacility : String
  checkInDate : String
  checkOutDate : String
  price : ℚ
  reservedForUpselling : String
deriving Repr, DecidableEq

/-- Typed counterpart of the `HTTPException`s raised by the endpoints. -/
inductive BookingError where
  /-- 404: no row matches the requested room number. -/
  | roomNotFound : BookingError
  /-- 400: the room's availability is not `available` (case-insensitive). -/
  | roomNotAvailable : BookingError
  /-- Uncaught `ValueError` from `strptime` on an unparseable date. -/
  | invalidDateFormat : BookingError
deriving Repr, DecidableEq

/-- Endpoint `GET /rooms/available` (`available_rooms`): rows whose availability is
`available` and whose upsell-reserved flag is `no`, both case-insensitive. -/
def availableRooms (ld : List Room) : List Room :=
  ld.filter fun r =>
    strLower r.availability == "available" && strLower r.reservedForUpselling == "no"

/-- The date screen of `available_rooms_for_dates`: the row's stored
`Check-out Date` is non-empty, parses, and is on or before the requested
check-in date (`room_checkout <= check_in_date`). -/
def freesUpBy (ciOrd : Nat) (r : Room) : Bool :=
  if r.checkOutDate = "" then false
  else
    match parseDate r.checkOutDate with
    | some rco => decide (toDays rco ≤ ciOrd)
    | none => false

/-- Endpoint `GET /rooms/available-for-dates` (`available_rooms_for_dates`): skips
upsell-reserved rows, keeps rows currently `available`, and additionally
keeps rows whose stored check-out date is on or before the requested
check-in.  Returns `none` where the endpoint answers 400 (unparseable
query date). -/
def availableRoomsForDates (ld : List Room) (check_in check_out : String) :
    Option (List Room) :=
  match parseDate check_in, parseDate check_out with
  | some ci, some _ =>
    some (ld.filter fun r =>
      !(strLower r.reservedForUpselling == "yes") &&
      (strLower r.availability == "available" || freesUpBy (toDays ci) r))
  | _, _ => none

/-- A room row as decorated by the upselling endpoints: the (possibly
marked-up) `Price` written into the row dict, plus the `original_price`,
`is_premium_upselling` and `markup_percentage` keys the endpoint adds. -/
structure PricedRoom where
  room : Room
  price : ℚ
  originalPrice : ℚ
  isPremiumUpselling : Bool
  markupPercentage : ℚ
deriving Repr, DecidableEq

/-- The decoration applied to each returned row by the upselling endpoints:
upsell-reserved rows get `Price = original * (1 + markup/100)`, others keep
their price; both record the original price. -/
def decorateUpsell (markup : ℚ) (r : Room) : PricedRoom :=
  if strLower r.reservedForUpselling == "yes" then
    { room := r
      price := r.price * (1 + markup / 100)
      originalPrice := r.price
      isPremiumUpselling := true
      markupPercentage := markup }
  else
    { room := r
      price := r.price
      originalPrice := r.price
      isPremiumUpselling := false
      markupPercentage := 0 }

/-- Endpoint `GET /rooms/available-with-upselling` (`available_rooms_with_upselling`):
all currently-available rows (including upsell-reserved ones), each
decorated by `decorateUpsell`. -/
def availableRoomsWithUpselling (ld : List Room) (markup : ℚ) : List PricedRoom :=
  (ld.filter fun r => strLower r.availability == "available").map
    (decorateUpsell markup)

/-- Endpoint `GET /rooms/available-for-dates-with-upselling`
(`available_rooms_for_dates_with_upselling`): like
`availableRoomsForDates` but without the upsell-reserved exclusion, each
returned row decorated by `decorateUpsell`. -/
def availableRoomsForDatesWithUpselling (ld : List Room)
    (check_in check_out : String) (markup : ℚ) : Option (List PricedRoom) :=
  match parseDate check_in, parseDate check_out with
  | some ci, some _ =>
    some (((ld.filter fun r =>
        strLower r.availability == "available" || freesUpBy (toDays ci) r)).map
      (decorateUpsell markup))
  | _, _ => none

/-- The request body of `POST /bookings/create` (`BookingRequest`). -/
structure BookingRequest where
  guest_id : Int
  room_number : Int
  check_in_date : String
  check_out_date : String
  number_of_adults : Int
  purpose_of_visit : String
deriving Repr, DecidableEq

/-- The response of `POST /bookings/create` (`BookingResponse`).  The
`booking_id` field is synthesized from the wall clock
(`datetime.now().strftime(...)`) and is outside the embedding; no claim
mentions it. -/
structure BookingResponse where
  guest_id : Int
  room_number : Int
  room_type : String
  check_in_date : String
  check_out_date : String
  number_of_adults : Int
  purpose_of_visit : String
  total_cost : ℚ
  booking_status : String
deriving Repr, DecidableEq

/-- The per-row effect of the `df.loc[...] = ["Booked", f"Guest_{...}",
check_in, check_out]` assignment of `create_booking`: every row whose
number matches is set to `Booked` with the guest label and dates. -/
def bookRow (b : BookingRequest) (r : Room) : Room :=
  if r.roomNumber == b.room_number then
    { r with
        availability := "Booked"
        guestName := "Guest_" ++ toString b.guest_id
        checkInDate := b.check_in_date
        checkOutDate := b.check_out_date }
  else r

/-- The `BookingResponse` `create_booking` builds on success: `row` is the
first ledger row matching the room number (`row.iloc[0]`, read before the
mutation), and `total_cost = float(row["Price"]) * nights` with
`nights = (strptime check_out - strptime check_in).days`. -/
def mkBookingResponse (b : BookingRequest) (row : Room) (co ci : Nat × Nat × Nat) :
    BookingResponse :=
  { guest_id := b.guest_id
    room_number := b.room_number
    room_type := row.roomType
    check_in_date := b.check_in_date
    check_out_date := b.check_out_date
    number_of_adults := b.number_of_adults
    purpose_of_visit := b.purpose_of_visit
    total_cost := row.price * ((((toDays co : Int) - (toDays ci : Int)) : Int) : ℚ)
    booking_status := "Confirmed" }

/-- Endpoint `POST /bookings/create` (`create_booking`).  Looks up the first row
with the requested room number; 404 if none, 400 if its availability is
not `available`.  Otherwise every row with that room number is booked
(`bookRow`) and the response is `mkBookingResponse`.  In the Python, the
in-memory mutation happens before the `strptime` calls, so an unparseable
date raises after mutating `df`; no claim depends on the ledger left
behind by that error path, so the model just reports the error. -/
def createBooking (ld : List Room) (b : BookingRequest) :
    Except BookingError (List Room × BookingResponse) :=
  match ld.find? (fun r => r.roomNumber == b.room_number) with
  | none => .error .roomNotFound
  | some row =>
    if strLower row.availability == "available" then
      match parseDate b.check_out_date, parseDate b.check_in_date with
      | some co, some ci => .ok (ld.map (bookRow b), mkBookingResponse b row co ci)
      | _, _ => .error .invalidDateFormat
    else .error .roomNotAvailable

/-- The request body of `PUT /rooms/{n}/update-guest-info` (`RoomUpdate`).
All fields default to the empty string, which in the endpoint means "keep
the previous value".  The Python model also carries a `room_number` field,
unused by the endpoint (the path parameter is used instead). -/
structure RoomUpdate where
  room_number : Int := 0
  availability : String := ""
  guest_name : String := ""
  number_of_people : String := ""
  check_in_date : String := ""
  check_out_date : String := ""
  extra_facility : String := ""
deriving Repr, DecidableEq

/-- Python's `new or old` fallback on strings: keep `old` when `new` is
empty. -/
def orKeep (new old : String) : String :=
  if new = "" then old else new

/-- Endpoint `PUT /rooms/<n>/update-guest-info` (`update_guest`): 404 if the room
number is absent; otherwise each of the six fields of every row with that
number is overwritten by the payload field when it is non-empty, else kept
at the value of the first matching row (`row.iloc[0]`). -/
def updateGuest (ld : List Room) (room_number : Int) (p : RoomUpdate) :
    Except BookingError (List Room) :=
  match ld.find? (fun r => r.roomNumber == room_number) with
  | none => .error .roomNotFound
  | some row =>
    .ok (ld.map fun r =>
      if r.roomNumber == room_number then
        { r with
            availability := orKeep p.availability row.availability
            guestName := orKeep p.guest_name row.guestName
            numberOfPeople := orKeep p.number_of_people row.numberOfPeople
            extraFacility := orKeep p.extra_facility row.extraFacility
            checkInDate := orKeep p.check_in_date row.checkInDate
            checkOutDate := orKeep p.check_out_date row.checkOutDate }
      else r)

/-- The per-row effect of the reset assignment of `cancel_booking`. -/
def freeRow (room_number : Int) (r : Room) : Room :=
  if r.roomNumber == room_number then
    { r with
        availability := "Available"
        guestName := ""
        numberOfPeople := ""
        extraFacility := ""
        checkInDate := ""
        checkOutDate := "" }
  else r

/-- Endpoint `DELETE /bookings/cancel/<n>` (`cancel_booking`, the spec's
`free_room`): 404 if the room number is absent; otherwise every row with
that number is reset to `Available` with guest, occupancy, facility and
date fields cleared. -/
def cancelBooking (ld : List Room) (room_number : Int) :
    Except BookingError (List Room) :=
  match ld.find? (fun r => r.roomNumber == room_number) with
  | none => .error .roomNotFound
  | some _ => .ok (ld.map (freeRow room_number))

/-! ## Context Analyzer (`hotel_mcp_sse_server.py`)

`_perform_deep_context_analysis` lowercases each text field of the guest
record (`guest_data.get('...', '').lower()`) before handing it to the
analysis functions, whose keyword sets are all lowercase.  The functions
below model `_analyze_lifestyle` and `_analyze_satisfaction` exactly; the
theorems quantify over the raw record texts and apply `strLower` at the
call, as the caller does.  Each Python function mutates a freshly-built
dict through a sequence of `if` blocks; the model threads the record
through one definition per block, in the same order. -/

/-- The `lifestyle` dict built by `_analyze_lifestyle`. -/
structure Lifestyle where
  activityLevel : String
  wellnessFocus : String
  businessOrientation : String
  socialPreference : String
  interests : List String
deriving Repr, DecidableEq

/-- The initial `lifestyle` dict of `_analyze_lifestyle`. -/
def lifestyleInit : Lifestyle :=
  { activityLevel := "moderate"
    wellnessFocus := "low"
    businessOrientation := "low"
    socialPreference := "moderate"
    interests := [] }

/-- The profession-based `if/elif` chain of `_analyze_lifestyle`. -/
def lifestyleProfession (profession : String) (l : Lifestyle) : Lifestyle :=
  if anyKeyword profession ["executive", "manager", "director", "ceo", "business"] then
    { l with
        businessOrientation := "high"
        interests := l.interests ++ ["business_facilities", "executive_services", "networking"] }
  else if anyKeyword profession ["doctor", "engineer", "consultant", "lawyer"] then
    { l with
        businessOrientation := "moderate-high"
        interests := l.interests ++ ["professional_services", "quiet_environment"] }
  else if anyKeyword profession ["teacher", "nurse", "social"] then
    { l with
        socialPreference := "high"
        interests := l.interests ++ ["community_activities", "social_spaces"] }
  else l

/-- The `if amenities_used:` block of `_analyze_lifestyle`: three
independent keyword checks, applied in order.  The pool/swimming check
runs after the wellness check and overwrites `activity_level`. -/
def lifestyleAmenities (amenities : String) (l : Lifestyle) : Lifestyle :=
  if amenities = "" then l
  else
    let a1 :=
      if anyKeyword amenities ["spa", "massage", "wellness", "gym", "fitness"] then
        { l with
            wellnessFocus := "high"
            activityLevel := "high"
            interests := l.interests ++ ["wellness", "fitness", "relaxation"] }
      else l
    let a2 :=
      if anyKeyword amenities ["pool", "swimming"] then
        { a1 with
            activityLevel := "moderate-high"
            interests := a1.interests ++ ["recreational_swimming"] }
      else a1
    if anyKeyword amenities ["business", "meeting", "conference"] then
      { a2 with
          businessOrientation := "high"
          interests := a2.interests ++ ["business_facilities", "meeting_spaces"] }
    else a2

/-- The `if extra_activities:` block of `_analyze_lifestyle`. -/
def lifestyleActivities (extra : String) (l : Lifestyle) : Lifestyle :=
  if extra = "" then l
  else
    let a1 :=
      if anyKeyword extra ["tour", "sightseeing", "cultural"] then
        { l with
            socialPreference := "high"
            interests := l.interests ++ ["cultural_experiences", "local_tours"] }
      else l
    let a2 :=
      if anyKeyword extra ["adventure", "sports", "hiking"] then
        { a1 with
            activityLevel := "high"
            interests := a1.interests ++ ["adventure_sports", "outdoor_activities"] }
      else a1
    if anyKeyword extra ["dining", "restaurant", "food"] then
      { a2 with interests := a2.interests ++ ["culinary_experiences"] }
    else a2

/-- Function `_analyze_lifestyle(profession, amenities_used, extra_activities)`:
the three blocks applied in program order to the initial dict.  Inputs
are the lowercased record fields, as passed by
`_perform_deep_context_analysis`. -/
def analyzeLifestyle (profession amenities extra : String) : Lifestyle :=
  lifestyleActivities extra (lifestyleAmenities amenities (lifestyleProfession profession lifestyleInit))

/-- The `satisfaction` dict built by `_analyze_satisfaction`. -/
structure Satisfaction where
  overallSentiment : String
  serviceSensitivity : String
  complaintPatterns : List String
  praisePatterns : List String
  attentionToDetail : String
deriving Repr, DecidableEq

/-- The initial `satisfaction` dict of `_analyze_satisfaction`. -/
def satisfactionInit : Satisfaction :=
  { overallSentiment := "neutral"
    serviceSensitivity := "moderate"
    complaintPatterns := []
    praisePatterns := []
    attentionToDetail := "moderate" }

/-- The sentiment `if/elif` chain of `_analyze_satisfaction` (positive
tiers checked before negative ones). -/
def satisfactionSentiment (feedback : String) (s : Satisfaction) : Satisfaction :=
  if anyKeyword feedback ["excellent", "amazing", "perfect", "loved", "wonderful"] then
    { s with overallSentiment := "very_positive" }
  else if anyKeyword feedback ["good", "nice", "pleasant", "satisfied"] then
    { s with overallSentiment := "positive" }
  else if anyKeyword feedback ["terrible", "awful", "horrible", "worst"] then
    { s with overallSentiment := "very_negative" }
  else if anyKeyword feedback ["bad", "poor", "disappointed", "unsatisfied"] then
    { s with overallSentiment := "negative" }
  else s

/-- The service-sensitivity check of `_analyze_satisfaction`. -/
def satisfactionService (feedback : String) (s : Satisfaction) : Satisfaction :=
  if anyKeyword feedback ["staff", "service", "attitude", "helpful"] then
    { s with serviceSensitivity := "high" }
  else s

/-- The three additive complaint-pattern checks of `_analyze_satisfaction`. -/
def satisfactionComplaints (feedback : String) (s : Satisfaction) : Satisfaction :=
  let a1 :=
    if anyKeyword feedback ["noise", "loud", "disturbing"] then
      { s with complaintPatterns := s.complaintPatterns ++ ["noise_issues"] }
    else s
  let a2 :=
    if anyKeyword feedback ["dirty", "clean", "hygiene"] then
      { a1 with complaintPatterns := a1.complaintPatterns ++ ["cleanliness_issues"] }
    else a1
  if anyKeyword feedback ["slow", "wait", "delay"] then
    { a2 with complaintPatterns := a2.complaintPatterns ++ ["service_speed_issues"] }
  else a2

/-- Function `_analyze_satisfaction(feedback, special_requests)`: the `if feedback:`
block, then the attention-to-detail check
`if special_requests and len(special_requests) > 20`.  Inputs are the
lowercased record fields, as passed by `_perform_deep_context_analysis`. -/
def analyzeSatisfaction (feedback special : String) : Satisfaction :=
  let s1 :=
    if feedback = "" then satisfactionInit
    else satisfactionComplaints feedback (satisfactionService feedback
      (satisfactionSentiment feedback satisfactionInit))
  if special ≠ "" ∧ special.length > 20 then { s1 with attentionToDetail := "high" }
  else s1

/-! ## Specified predicates and concrete fixtures -/

/-- The Room Ledger invariant stated by the spec (§3, §8): a room is
`Available` exactly when its guest name, check-in date, check-out date and
extra-facility fields are all empty. -/
def roomInvariant (r : Room) : Prop :=
  r.availability = "Available" ↔
    (r.guestName = "" ∧ r.checkInDate = "" ∧ r.checkOutDate = "" ∧ r.extraFacility = "")

instance (r : Room) : Decidable (roomInvariant r) := by
  unfold roomInvariant
  infer_instance

/-- The membership predicate of the date-range listing as the (amended)
spec describes it: non-upsell-reserved rooms that are currently available,
plus non-upsell-reserved rooms currently booked whose stored check-out
date parses and is on or before the requested check-in date. -/
def specRangePred (ci : Nat × Nat × Nat) (r : Room) : Bool :=
  !(strLower r.reservedForUpselling == "yes") &&
  (strLower r.availability == "available" ||
   (strLower r.availability == "booked" &&
    (match parseDate r.checkOutDate with
     | some rco => decide (toDays rco ≤ toDays ci)
     | none => false)))

/-- Fixture: an ordinary available room. -/
def deluxe101 : Room :=
  { roomNumber := 101
    roomType := "Deluxe"
    availability := "Available"
    guestName := ""
    numberOfPeople := ""
    extraFacility := ""
    checkInDate := ""
    checkOutDate := ""
    price := 3500
    reservedForUpselling := "No" }

/-- Fixture: a booked room whose stay ends 2025-07-10. -/
def booked0710 : Room :=
  { deluxe101 with
      roomNumber := 102
      availability := "Booked"
      guestName := "Guest_3"
      checkInDate := "2025-07-06"
      checkOutDate := "2025-07-10" }

/-- Fixture: a booked room whose stay ends 2025-07-12. -/
def booked0712 : Room :=
  { deluxe101 with
      roomNumber := 103
      availability := "Booked"
      guestName := "Guest_4"
      checkInDate := "2025-07-08"
      checkOutDate := "2025-07-12" }

/-- Fixture: an available room flagged as reserved for upselling. -/
def reservedAvail5000 : Room :=
  { deluxe101 with
      roomNumber := 201
      roomType := "Suite"
      price := 5000
      reservedForUpselling := "Yes" }

/-- Fixture: a booked room (guest 7, 2025-08-01 to 2025-08-04). -/
def bookedGuest7 : Room :=
  { deluxe101 with
      availability := "Booked"
      guestName := "Guest_7"
      checkInDate := "2025-08-01"
      checkOutDate := "2025-08-04" }

/-- Fixture: a booked upsell-reserved room. -/
def reservedBooked : Room :=
  { bookedGuest7 with roomNumber := 202, reservedForUpselling := "Yes" }

/-- Fixture: a booking request for room 101, 2025-08-01 to 2025-08-04. -/
def reqStd : BookingRequest :=
  { guest_id := 1
    room_number := 101
    check_in_date := "2025-08-01"
    check_out_date := "2025-08-04"
    number_of_adults := 2
    purpose_of_visit := "Leisure" }

/-- Fixture: a booking request whose check-out equals its check-in. -/
def reqSameDay : BookingRequest :=
  { guest_id := 2
    room_number := 101
    check_in_date := "2025-08-04"
    check_out_date := "2025-08-04"
    number_of_adults := 1
    purpose_of_visit := "Business" }

/-- Fixture: an `update-guest-info` payload that only sets availability
back to `Available`, leaving every other field empty ("keep previous"). -/
def freePayload : RoomUpdate := { availability := "Available" }

/-- Fixture: a second ordinary available room. -/
def economy105 : Room :=
  { deluxe101 with roomNumber := 105, roomType := "Economy", price := 1500 }

/-- Fixture: the response of booking `deluxe101` through `reqStd`. -/
def stdResp : BookingResponse :=
  mkBookingResponse reqStd deluxe101 (2025, 8, 4) (2025, 8, 1)

/-! ## Elimination lemmas for the mutating operations -/

theorem createBooking_ok {ld : List Room} {b : BookingRequest}
    {ld' : List Room} {resp : BookingResponse}
    (h : createBooking ld b = Except.ok (ld', resp)) :
    ∃ row co ci,
      ld.find? (fun r => r.roomNumber == b.room_number) = some row ∧
      (strLower row.availability == "available") = true ∧
      parseDate b.check_out_date = some co ∧
      parseDate b.check_in_date = some ci ∧
      ld' = ld.map (bookRow b) ∧ resp = mkBookingResponse b row co ci := by
  unfold createBooking at h
  split at h
  · exact absurd h (by simp)
  · rename_i row hfind
    split at h
    · rename_i hav
      split at h
      · rename_i co ci hco hci
        simp only [Except.ok.injEq, Prod.mk.injEq] at h
        exact ⟨row, co, ci, hfind, hav, hco, hci, h.1.symm, h.2.symm⟩
      · exact absurd h (by simp)
    · exact absurd h (by simp)

theorem cancelBooking_ok {ld : List Room} {n : Int} {ld' : List Room}
    (h : cancelBooking ld n = Except.ok ld') :
    ∃ row, ld.find? (fun r => r.roomNumber == n) = some row ∧
      ld' = ld.map (freeRow n) := by
  unfold cancelBooking at h
  split at h
  · exact absurd h (by simp)
  · rename_i row hfind
    simp only [Except.ok.injEq] at h
    exact ⟨row, hfind, h.symm⟩

theorem guest_label_ne (i : Int) : "Guest_" ++ toString i ≠ "" := by
  intro h
  have h2 := congrArg String.length h
  rw [String.length_append, show ("Guest_").length = 6 from rfl,
    show ("" : String).length = 0 from rfl] at h2
  omega

/-! ## Claims -/

/-- C2 counterexample: a booking request on an existing `Available` room
whose check-out date equals its check-in date (both parseable) is NOT
rejected: `create_booking` confirms it with total cost 0.  There is no
`InvalidDateRange` failure anywhere in `create_booking`. -/
theorem createBooking_sameday_confirmed :
  (strLower deluxe101.availability == "available") = true ∧
  reqSameDay.check_out_date = reqSameDay.check_in_date ∧
  createBooking [deluxe101] reqSameDay =
    Except.ok ([bookRow reqSameDay deluxe101],
      mkBookingResponse reqSameDay deluxe101 (2025, 8, 4) (2025, 8, 4)) ∧
  (mkBookingResponse reqSameDay deluxe101 (2025, 8, 4) (2025, 8, 4)).booking_status
    = "Confirmed" ∧
  (mkBookingResponse reqSameDay deluxe101 (2025, 8, 4) (2025, 8, 4)).total_cost = 0 := by
  refine ⟨rfl, rfl, ?_, rfl, ?_⟩
  · with_unfolding_all rfl
  · with_unfolding_all rfl

/-- C2 (amended): for every booking request whose room exists and is
`Available` and whose dates are parseable with check_out on or before
check_in, `create_booking` performs no date-range validation: it succeeds
and confirms the booking (with `total_cost = price * nights`, `nights` ≤ 0). -/
theorem createBooking_no_date_range_check
    (ld : List Room) (b : BookingRequest) (row : Room) (co ci : Nat × Nat × Nat)
    (hfind : ld.find? (fun r => r.roomNumber == b.room_number) = some row)
    (hav : (strLower row.availability == "available") = true)
    (hco : parseDate b.check_out_date = some co)
    (hci : parseDate b.check_in_date = some ci)
    (hle : toDays co ≤ toDays ci) :
    createBooking ld b =
      Except.ok (ld.map (bookRow b), mkBookingResponse b row co ci) ∧
    (mkBookingResponse b row co ci).booking_status = "Confirmed" ∧
    ((toDays co : Int) - (toDays ci : Int)) ≤ 0 := by
  refine ⟨?_, rfl, by omega⟩
  simp [createBooking, hfind, hav, hco, hci]

/-- C2 (amended) witness: the same-day request on `deluxe101`. -/
theorem createBooking_no_date_range_check_witness :
  createBooking [deluxe101] reqSameDay =
    Except.ok ([deluxe101].map (bookRow reqSameDay),
      mkBookingResponse reqSameDay deluxe101 (2025, 8, 4) (2025, 8, 4)) ∧
  (mkBookingResponse reqSameDay deluxe101 (2025, 8, 4) (2025, 8, 4)).booking_status
    = "Confirmed" ∧
  ((toDays (2025, 8, 4) : Int) - (toDays (2025, 8, 4) : Int)) ≤ 0 :=
  createBooking_no_date_range_check [deluxe101] reqSameDay deluxe101
    (2025, 8, 4) (2025, 8, 4) (by decide) (by decide) (by decide) (by decide)
    (by decide)

/-- C3: after a successful `create_booking`, no room in the immediately
following `list_available` result carries the booked room number. -/
theorem booked_room_never_listed_available
    (ld : List Room) (b : BookingRequest) (ld' : List Room) (resp : BookingResponse)
    (h : createBooking ld b = Except.ok (ld', resp)) :
    ∀ r ∈ availableRooms ld', r.roomNumber ≠ b.room_number := by
  obtain ⟨row, co, ci, -, -, -, -, hld', -⟩ := createBooking_ok h
  subst hld'
  intro r hr
  rw [availableRooms, List.mem_filter] at hr
  obtain ⟨hmem, hpred⟩ := hr
  rw [List.mem_map] at hmem
  obtain ⟨a, ha, rfl⟩ := hmem
  by_cases hn : (a.roomNumber == b.room_number) = true
  · rw [bookRow, if_pos hn] at hpred
    simp only [Bool.and_eq_true] at hpred
    exact absurd hpred.1 (by decide)
  · rw [bookRow, if_neg hn]
    simpa using hn

/-- C3 witness: booking room 101 out of a two-room ledger; the remaining
listed room is not room 101. -/
theorem booked_room_never_listed_available_witness :
  economy105.roomNumber ≠ reqStd.room_number :=
  booked_room_never_listed_available [deluxe101, economy105] reqStd
    ([deluxe101, economy105].map (bookRow reqStd)) stdResp
    (by with_unfolding_all rfl) economy105 (by decide)

/-- C5: the total cost returned by a successful `create_booking` is the
room's nightly price times the whole-day difference between check-out and
check-in. -/
theorem createBooking_cost_formula
    (ld : List Room) (b : BookingRequest) (ld' : List Room) (resp : BookingResponse)
    (row : Room) (co ci : Nat × Nat × Nat)
    (hfind : ld.find? (fun r => r.roomNumber == b.room_number) = some row)
    (hco : parseDate b.check_out_date = some co)
    (hci : parseDate b.check_in_date = some ci)
    (h : createBooking ld b = Except.ok (ld', resp)) :
    resp.total_cost = row.price * ((((toDays co : Int) - (toDays ci : Int)) : Int) : ℚ) := by
  obtain ⟨row', co', ci', hfind', -, hco', hci', -, hresp⟩ := createBooking_ok h
  rw [hfind'] at hfind
  rw [hco'] at hco
  rw [hci'] at hci
  obtain rfl : row' = row := by injection hfind
  obtain rfl : co' = co := by injection hco
  obtain rfl : ci' = ci := by injection hci
  rw [hresp]
  rfl

/-- C5 witness: price 3500, 2025-08-01 → 2025-08-04 gives 3 nights for a
total cost of 10500. -/
theorem createBooking_cost_formula_witness :
  stdResp.total_cost
      = deluxe101.price * ((((toDays (2025, 8, 4) : Int) - (toDays (2025, 8, 1) : Int)) : Int) : ℚ) ∧
  stdResp.total_cost = 10500 ∧ deluxe101.price = 3500 ∧
  ((toDays (2025, 8, 4) : Int) - (toDays (2025, 8, 1) : Int)) = 3 :=
  ⟨createBooking_cost_formula [deluxe101] reqStd ([deluxe101].map (bookRow reqStd))
      stdResp deluxe101 (2025, 8, 4) (2025, 8, 1) (by decide) (by decide) (by decide)
      (by with_unfolding_all rfl),
    by with_unfolding_all rfl, rfl, by decide⟩

/-- C1 counterexample: `update_guest_info` can set a booked room's
availability back to `Available` while the empty payload fields keep the
previous guest name and dates, leaving a room that is `Available` with a
non-empty guest name — the claimed invariant fails after this core
operation. -/
theorem updateGuest_breaks_invariant :
  updateGuest [bookedGuest7] 101 freePayload =
    Except.ok [{ bookedGuest7 with availability := "Available" }] ∧
  ({ bookedGuest7 with availability := "Available" }).availability = "Available" ∧
  ({ bookedGuest7 with availability := "Available" }).guestName = "Guest_7" ∧
  ¬ roomInvariant { bookedGuest7 with availability := "Available" } := by
  refine ⟨by with_unfolding_all rfl, rfl, rfl, by decide⟩

/-- C1 (amended): `create_booking` and `free_room` (cancel) preserve the
`Available` ⇔ all-fields-empty invariant over the Room Ledger; the third
core operation, `update_guest_info`, does not (see the counterexample). -/
theorem booking_and_free_preserve_invariant
    (ld : List Room) (b : BookingRequest) (n : Int)
    (hinv : ∀ r ∈ ld, roomInvariant r) :
    (∀ ld' resp, createBooking ld b = Except.ok (ld', resp) →
      ∀ r ∈ ld', roomInvariant r) ∧
    (∀ ld', cancelBooking ld n = Except.ok ld' → ∀ r ∈ ld', roomInvariant r) := by
  constructor
  · intro ld' resp h r hr
    obtain ⟨row, co, ci, -, -, -, -, hld', -⟩ := createBooking_ok h
    subst hld'
    rw [List.mem_map] at hr
    obtain ⟨a, ha, rfl⟩ := hr
    by_cases hn : (a.roomNumber == b.room_number) = true
    · rw [bookRow, if_pos hn]
      have hg := guest_label_ne b.guest_id
      simp [roomInvariant, hg]
    · rw [bookRow, if_neg hn]
      exact hinv a ha
  · intro ld' h r hr
    obtain ⟨row, -, hld'⟩ := cancelBooking_ok h
    subst hld'
    rw [List.mem_map] at hr
    obtain ⟨a, ha, rfl⟩ := hr
    by_cases hn : (a.roomNumber == n) = true
    · rw [freeRow, if_pos hn]
      simp [roomInvariant]
    · rw [freeRow, if_neg hn]
      exact hinv a ha

/-- C1 (amended) witness: freeing the booked room 101 leaves a ledger row
satisfying the invariant. -/
theorem booking_and_free_preserve_invariant_witness :
  roomInvariant (freeRow 101 bookedGuest7) :=
  (booking_and_free_preserve_invariant [bookedGuest7] reqStd 101 (by decide)).2
    ([bookedGuest7].map (freeRow 101)) (by with_unfolding_all rfl)
    (freeRow 101 bookedGuest7) (by decide)

/-- C4 counterexample: a room that is currently `Available` but flagged
upsell-reserved is NOT returned by the date-range listing, so the result
is not "exactly the rooms currently Available plus ...". -/
theorem availableRoomsForDates_misses_reserved_available :
  reservedAvail5000.availability = "Available" ∧
  availableRoomsForDates [reservedAvail5000] "2025-07-10" "2025-07-12" = some [] := by
  refine ⟨rfl, by with_unfolding_all rfl⟩

/-- C4 (amended): assuming every ledger row's availability is `available`
or `booked` (case-insensitively, the data model's two states), the
date-range listing returns exactly the non-upsell-reserved rooms that are
currently available, plus the non-upsell-reserved booked rooms whose
stored check-out date parses and is on or before the requested check-in
date (check-out equal to the requested check-in counts as free). -/
theorem availableRoomsForDates_eq_specRangePred
    (ld out : List Room) (check_in check_out : String) (ci : Nat × Nat × Nat)
    (hav : ∀ r ∈ ld, strLower r.availability = "available" ∨
      strLower r.availability = "booked")
    (hci : parseDate check_in = some ci)
    (h : availableRoomsForDates ld check_in check_out = some out) :
    out = ld.filter (specRangePred ci) := by
  unfold availableRoomsForDates at h
  rw [hci] at h
  cases hco : parseDate check_out with
  | none => rw [hco] at h; exact absurd h (by simp)
  | some co =>
    rw [hco] at h
    simp only [Option.some.injEq] at h
    subst h
    apply List.filter_congr
    intro r hr
    rcases hav r hr with havl | havl
    · simp [specRangePred, havl]
    · simp only [specRangePred, havl]
      rw [show (("booked" : String) == "available") = false from rfl,
        show (("booked" : String) == "booked") = true from rfl]
      simp only [Bool.false_or, Bool.true_and]
      rw [freesUpBy]
      by_cases hempty : r.checkOutDate = ""
      · rw [if_pos hempty, hempty, show parseDate "" = none from rfl]
      · rw [if_neg hempty]

/-- C4 (amended) witness: for check-in 2025-07-10 the listing keeps the
room booked until exactly 2025-07-10 and the available room, and drops
the room booked until 2025-07-12 and the upsell-reserved room. -/
theorem availableRoomsForDates_eq_specRangePred_witness :
  [booked0710, deluxe101] =
    [booked0710, booked0712, deluxe101, reservedAvail5000].filter
      (specRangePred (2025, 7, 10)) :=
  availableRoomsForDates_eq_specRangePred
    [booked0710, booked0712, deluxe101, reservedAvail5000] [booked0710, deluxe101]
    "2025-07-10" "2025-07-12" (2025, 7, 10) (by decide) (by decide)
    (by with_unfolding_all rfl)

/-- C7 counterexample: freeing a room flagged upsell-reserved resets it,
but the immediately following `list_available` does NOT include it (the
listing filters out upsell-reserved rooms). -/
theorem freed_reserved_room_not_listed :
  cancelBooking [reservedBooked] 202 = Except.ok [freeRow 202 reservedBooked] ∧
  (freeRow 202 reservedBooked).availability = "Available" ∧
  availableRooms [freeRow 202 reservedBooked] = [] := by
  refine ⟨by with_unfolding_all rfl, by decide, by decide⟩

/-- C7 (amended): for every existing room whose matching rows are not
upsell-reserved, `free_room(n)` followed by `list_available` includes a
row with number `n`, its guest and date fields cleared. -/
theorem freed_room_listed_available
    (ld ld' : List Room) (n : Int)
    (h : cancelBooking ld n = Except.ok ld')
    (hres : ∀ r ∈ ld, r.roomNumber = n → strLower r.reservedForUpselling = "no") :
    ∃ r ∈ availableRooms ld', r.roomNumber = n ∧ r.guestName = "" ∧
      r.checkInDate = "" ∧ r.checkOutDate = "" := by
  obtain ⟨row, hfind, hld'⟩ := cancelBooking_ok h
  subst hld'
  have hmem : row ∈ ld := List.mem_of_find?_eq_some hfind
  have hnum : (row.roomNumber == n) = true := by
    have h2 := List.find?_some hfind
    simpa using h2
  have hneq : row.roomNumber = n := by simpa using hnum
  have hfr : freeRow n row =
      { row with
          availability := "Available"
          guestName := ""
          numberOfPeople := ""
          extraFacility := ""
          checkInDate := ""
          checkOutDate := "" } := by
    rw [freeRow, if_pos hnum]
  refine ⟨freeRow n row, ?_, ?_, ?_, ?_, ?_⟩
  · rw [availableRooms, List.mem_filter]
    refine ⟨List.mem_map_of_mem _ hmem, ?_⟩
    rw [hfr]
    have hr := hres row hmem hneq
    simp [hr, show strLower "Available" = "available" from rfl]
  · rw [hfr]; exact hneq
  · rw [hfr]
  · rw [hfr]
  · rw [hfr]

/-- C7 (amended) witness: freeing the ordinary booked room 101 makes it
appear in `list_available` with cleared fields. -/
theorem freed_room_listed_available_witness :
  ∃ r ∈ availableRooms ([bookedGuest7].map (freeRow 101)), r.roomNumber = 101 ∧
    r.guestName = "" ∧ r.checkInDate = "" ∧ r.checkOutDate = "" :=
  freed_room_listed_available [bookedGuest7] ([bookedGuest7].map (freeRow 101)) 101
    (by with_unfolding_all rfl) (by decide)

/-- C6: every upsell-reserved row of the upsell-priced listing carries the
marked-up price `original * (1 + markup/100)` and keeps the original
price alongside. -/
theorem upsell_markup_price
    (ld : List Room) (markup : ℚ) (pr : PricedRoom)
    (hmem : pr ∈ availableRoomsWithUpselling ld markup)
    (hres : strLower pr.room.reservedForUpselling = "yes") :
    pr.price = pr.originalPrice * (1 + markup / 100) ∧
    pr.originalPrice = pr.room.price := by
  rw [availableRoomsWithUpselling, List.mem_map] at hmem
  obtain ⟨r, hr, rfl⟩ := hmem
  by_cases hy : (strLower r.reservedForUpselling == "yes") = true
  · rw [decorateUpsell, if_pos hy]
    exact ⟨rfl, rfl⟩
  · exfalso
    rw [decorateUpsell, if_neg hy] at hres
    dsimp only at hres
    exact hy (by rw [hres]; rfl)

/-- C6 witness: original price 5000 at 15% markup lists at 5750 with the
original price preserved. -/
theorem upsell_markup_price_witness :
  (decorateUpsell 15 reservedAvail5000).price
      = (decorateUpsell 15 reservedAvail5000).originalPrice * (1 + 15 / 100) ∧
  (decorateUpsell 15 reservedAvail5000).originalPrice
      = (decorateUpsell 15 reservedAvail5000).room.price ∧
  (decorateUpsell 15 reservedAvail5000).price = 5750 ∧
  (decorateUpsell 15 reservedAvail5000).originalPrice = 5000 := by
  have h := upsell_markup_price [reservedAvail5000] 15 (decorateUpsell 15 reservedAvail5000)
    (by exact List.Mem.head _) (by decide)
  exact ⟨h.1, h.2, by with_unfolding_all rfl, by with_unfolding_all rfl⟩

/-- C10: both date-range listings parse the requested check-out date but
never use it: for a fixed ledger and check-in, any two parseable check-out
arguments produce identical results. -/
theorem range_listing_ignores_check_out
    (ld : List Room) (check_in co1 co2 : String) (markup : ℚ)
    (h1 : (parseDate co1).isSome = true) (h2 : (parseDate co2).isSome = true) :
    availableRoomsForDates ld check_in co1 = availableRoomsForDates ld check_in co2 ∧
    availableRoomsForDatesWithUpselling ld check_in co1 markup =
      availableRoomsForDatesWithUpselling ld check_in co2 markup := by
  obtain ⟨d1, hd1⟩ := Option.isSome_iff_exists.mp h1
  obtain ⟨d2, hd2⟩ := Option.isSome_iff_exists.mp h2
  constructor
  · unfold availableRoomsForDates
    rw [hd1, hd2]
    cases hci : parseDate check_in <;> rfl
  · unfold availableRoomsForDatesWithUpselling
    rw [hd1, hd2]
    cases hci : parseDate check_in <;> rfl

/-- C10 witness: two different parseable check-out dates give the same
result on a concrete ledger. -/
theorem range_listing_ignores_check_out_witness :
  availableRoomsForDates [booked0710, deluxe101] "2025-07-10" "2025-07-12" =
    availableRoomsForDates [booked0710, deluxe101] "2025-07-10" "2025-09-01" ∧
  availableRoomsForDatesWithUpselling [booked0710, deluxe101] "2025-07-10" "2025-07-12" 15 =
    availableRoomsForDatesWithUpselling [booked0710, deluxe101] "2025-07-10" "2025-09-01" 15 :=
  range_listing_ignores_check_out [booked0710, deluxe101] "2025-07-10" "2025-07-12"
    "2025-09-01" 15 (by decide) (by decide)

theorem lifestyleProfession_wellnessFocus (p : String) (l : Lifestyle) :
    (lifestyleProfession p l).wellnessFocus = l.wellnessFocus := by
  unfold lifestyleProfession
  repeat' split
  all_goals rfl

theorem lifestyleAmenities_high (a : String) (l : Lifestyle)
    (ha : a ≠ "")
    (hw : anyKeyword a ["spa", "massage", "wellness", "gym", "fitness"] = true)
    (hp : anyKeyword a ["pool", "swimming"] = false) :
    (lifestyleAmenities a l).wellnessFocus = "high" ∧
    (lifestyleAmenities a l).activityLevel = "high" := by
  rw [lifestyleAmenities, if_neg ha]
  simp only [hw, hp, if_true, Bool.false_eq_true, if_false]
  split
  all_goals exact ⟨rfl, rfl⟩

theorem lifestyleActivities_wellnessFocus (e : String) (l : Lifestyle) :
    (lifestyleActivities e l).wellnessFocus = l.wellnessFocus := by
  unfold lifestyleActivities
  repeat' split
  all_goals rfl

theorem lifestyleActivities_activity_high (e : String) (l : Lifestyle)
    (h : l.activityLevel = "high") :
    (lifestyleActivities e l).activityLevel = "high" := by
  unfold lifestyleActivities
  repeat' split
  all_goals first | rfl | exact h

/-- C8 counterexample: for amenities text "spa pool" (wellness keyword
present), the pool/swimming check runs after the wellness check and
overwrites activity-level to `moderate-high`, so activity-level is NOT
`high`. -/
theorem spa_pool_overwrites_activity :
  anyKeyword "spa pool" ["spa", "massage", "wellness", "gym", "fitness"] = true ∧
  (analyzeLifestyle "" "spa pool" "").wellnessFocus = "high" ∧
  (analyzeLifestyle "" "spa pool" "").activityLevel = "moderate-high" ∧
  (analyzeLifestyle "" "spa pool" "").activityLevel ≠ "high" := by
  refine ⟨by decide, by decide, by decide, by decide⟩

/-- C8 (amended): when the (lowercased) amenities text mentions a wellness
keyword, wellness-focus is `high`; activity-level is then `high` provided
the amenities do not also mention pool/swimming (which would overwrite it
to `moderate-high`). -/
theorem wellness_amenities_high
    (profession amenities extra : String)
    (hw : anyKeyword amenities ["spa", "massage", "wellness", "gym", "fitness"] = true)
    (hp : anyKeyword amenities ["pool", "swimming"] = false) :
    (analyzeLifestyle profession amenities extra).wellnessFocus = "high" ∧
    (analyzeLifestyle profession amenities extra).activityLevel = "high" := by
  have ha : amenities ≠ "" := by
    intro hs
    subst hs
    exact absurd hw (by decide)
  have h2 := lifestyleAmenities_high amenities (lifestyleProfession profession lifestyleInit)
    ha hw hp
  unfold analyzeLifestyle
  exact ⟨(lifestyleActivities_wellnessFocus extra _).trans h2.1,
    lifestyleActivities_activity_high extra _ h2.2⟩

/-- C8 (amended) witness: amenities "spa and gym" with no pool keyword. -/
theorem wellness_amenities_high_witness :
  (analyzeLifestyle "engineer" "spa and gym" "dining").wellnessFocus = "high" ∧
  (analyzeLifestyle "engineer" "spa and gym" "dining").activityLevel = "high" :=
  wellness_amenities_high "engineer" "spa and gym" "dining" (by decide) (by decide)

theorem satisfactionSentiment_attention (f : String) (s : Satisfaction) :
    (satisfactionSentiment f s).attentionToDetail = s.attentionToDetail := by
  unfold satisfactionSentiment
  repeat' split
  all_goals rfl

theorem satisfactionService_attention (f : String) (s : Satisfaction) :
    (satisfactionService f s).attentionToDetail = s.attentionToDetail := by
  unfold satisfactionService
  split
  all_goals rfl

theorem satisfactionComplaints_attention (f : String) (s : Satisfaction) :
    (satisfactionComplaints f s).attentionToDetail = s.attentionToDetail := by
  unfold satisfactionComplaints
  repeat' split
  all_goals rfl

/-- C9 counterexample: a special-requests text of length 15 (strictly
between 10 and 30) gets attention-to-detail `moderate`, not the claimed
`moderate-high`; the code's only threshold is length > 20. -/
theorem attention_short_requests_moderate :
  ("quiet room plz!".length > 10 ∧ "quiet room plz!".length ≤ 30) ∧
  (analyzeSatisfaction "" "quiet room plz!").attentionToDetail = "moderate" ∧
  (analyzeSatisfaction "" "quiet room plz!").attentionToDetail ≠ "moderate-high" := by
  refine ⟨by decide, by decide, by decide⟩

/-- C9 (amended): attention-to-detail is `high` exactly when the
special-requests text is longer than 20 characters, and `moderate`
otherwise; there is no `moderate-high` tier and no threshold at 30 or
10. -/
theorem attention_to_detail_threshold (feedback special : String) :
    (analyzeSatisfaction feedback special).attentionToDetail =
      if 20 < special.length then "high" else "moderate" := by
  unfold analyzeSatisfaction
  by_cases h20 : 20 < special.length
  · have hne : special ≠ "" := by
      intro hs
      rw [hs] at h20
      exact absurd h20 (by decide)
    rw [if_pos ⟨hne, h20⟩, if_pos h20]
  · rw [if_neg (fun hand => h20 hand.2), if_neg h20]
    split
    · rfl
    · rw [satisfactionComplaints_attention, satisfactionService_attention,
        satisfactionSentiment_attention]
      rfl

end Hotel
